import Mathlib

/-!
Verification development for the bidirectional LINE / WeChat-Work message
relay backend.  The JavaScript sources are shallowly embedded: every
definition below mirrors one function of the repository (named after it
where Lean allows), JavaScript `Map` objects become association lists with
JS `Map.get` / `Map.set` / `Map.delete` semantics, thrown exceptions become
`Except`, and network collaborators (axios, crypto HMAC) become explicit
parameters or outcome arguments.
-/

namespace Relay

/-! ## JavaScript Map semantics

Association-list model of a JavaScript `Map` with string keys: `get`
returns the value of the (unique) entry for the key, `set` overwrites in
place or appends, `delete` removes the entry for the key. -/

/-- Lookup in a JS `Map` (first entry with the key, as `Map.get`). -/
def jsGet {β : Type} (m : List (String × β)) (k : String) : Option β :=
  match m with
  | [] => none
  | (k0, v) :: rest => if k0 = k then some v else jsGet rest k

/-- JS `Map.set`: replace the entry in place if the key is present, else append. -/
def jsSet {β : Type} (m : List (String × β)) (k : String) (v : β) : List (String × β) :=
  match m with
  | [] => [(k, v)]
  | (k0, v0) :: rest =>
      if k0 = k then (k, v) :: rest else (k0, v0) :: jsSet rest k v

/-- JS `Map.delete`: remove the entry for the key. -/
def jsDelete {β : Type} (m : List (String × β)) (k : String) : List (String × β) :=
  match m with
  | [] => []
  | (k0, v0) :: rest =>
      if k0 = k then rest else (k0, v0) :: jsDelete rest k

/-! ## src/services/userMappingService.js

The service keeps four JS `Map`s: `lineToChatMappings`, `wechatToLineMappings`,
`groupMappings` and `userProfiles`.  A user-mapping entry stores the
counterpart id together with creation metadata (`mappedAt` timestamp and the
spread `options`, of which only `autoMapped` is ever passed by the service
itself); wall-clock time is injected as a `now : Nat` argument. -/

/-- Value stored in `lineToChatMappings` / `wechatToLineMappings`:
counterpart user id plus creation metadata. -/
structure MapEntry where
  counterpart : String
  mappedAt : Nat
  autoMapped : Bool
  deriving Repr, DecidableEq

/-- Profile stored in `userProfiles` (`displayName` may be absent). -/
structure UserProfile where
  displayName : Option String
  deriving Repr, DecidableEq

/-- State of `UserMappingService`. -/
structure MappingStore where
  lineToChatMappings : List (String × MapEntry)
  wechatToLineMappings : List (String × MapEntry)
  groupMappings : List (String × String)
  userProfiles : List (String × UserProfile)
  deriving Repr, DecidableEq

/-- The empty store built by the `UserMappingService` constructor. -/
def MappingStore.empty : MappingStore :=
  { lineToChatMappings := [], wechatToLineMappings := [],
    groupMappings := [], userProfiles := [] }

/-- Embeds `mapLineToWeChat(lineUserId, wechatUserId, options)`: both ids must
be non-empty (JS truthiness on strings), then both directions are `Map.set`.
Returns the JS boolean result together with the new store. -/
def mapLineToWeChat (s : MappingStore) (lineUserId wechatUserId : String)
    (now : Nat) (autoMapped : Bool := false) : Bool × MappingStore :=
  if lineUserId = "" ∨ wechatUserId = "" then (false, s)
  else
    (true,
      { s with
        lineToChatMappings := jsSet s.lineToChatMappings lineUserId
          { counterpart := wechatUserId, mappedAt := now, autoMapped := autoMapped },
        wechatToLineMappings := jsSet s.wechatToLineMappings wechatUserId
          { counterpart := lineUserId, mappedAt := now, autoMapped := autoMapped } })

/-- Embeds `getWeChatUserFromLine`. -/
def getWeChatUserFromLine (s : MappingStore) (lineUserId : String) : Option String :=
  (jsGet s.lineToChatMappings lineUserId).map MapEntry.counterpart

/-- Embeds `getLineUserFromWeChat`. -/
def getLineUserFromWeChat (s : MappingStore) (wechatUserId : String) : Option String :=
  (jsGet s.wechatToLineMappings wechatUserId).map MapEntry.counterpart

/-- Embeds `getUserProfile(platform, userId)` with its composite
`platform:userId` key. -/
def getUserProfile (s : MappingStore) (platform userId : String) : Option UserProfile :=
  jsGet s.userProfiles (platform ++ ":" ++ userId)

/-- Embeds `storeUserProfile(platform, userId, profile)`. -/
def storeUserProfile (s : MappingStore) (platform userId : String)
    (profile : UserProfile) : MappingStore :=
  { s with userProfiles := jsSet s.userProfiles (platform ++ ":" ++ userId) profile }

/-- Embeds `removeMapping(lineUserId)`: looks up the forward entry; if absent
returns `false` leaving the store untouched, otherwise deletes the forward
entry and the reverse entry keyed by the stored counterpart. -/
def removeMapping (s : MappingStore) (lineUserId : String) : Bool × MappingStore :=
  match jsGet s.lineToChatMappings lineUserId with
  | none => (false, s)
  | some entry =>
      (true,
        { s with
          lineToChatMappings := jsDelete s.lineToChatMappings lineUserId,
          wechatToLineMappings := jsDelete s.wechatToLineMappings entry.counterpart })

/-! Levenshtein distance, matrix form, exactly as `_levenshteinDistance`:
row `i` ranges over `str2` prefixes, column `j` over `str1` prefixes; row 0 is
`0..str1.length`; each later row is filled left to right from the previous
row and the cell just written. -/

/-- Fills the tail of one matrix row.  `prev` is the previous row starting at
column `j-1` (so its head is the diagonal cell), `left` is the cell at column
`j-1` of the current row. -/
def levRowTail (c2 : Char) : List Char → List Nat → Nat → List Nat
  | [], _, _ => []
  | _, [], _ => []
  | c1 :: cs, diag :: prevRest, left =>
      let up := match prevRest with
        | u :: _ => u
        | [] => 0
      let cur := if c2 = c1 then diag else 1 + min diag (min up left)
      cur :: levRowTail c2 cs prevRest cur

/-- One full row of the Levenshtein matrix from the previous row. -/
def levRow (str1 : List Char) (prev : List Nat) (c2 : Char) : List Nat :=
  let left0 := prev.headD 0 + 1
  left0 :: levRowTail c2 str1 prev left0

/-- Embeds `_levenshteinDistance(str1, str2)`: the bottom-right cell of the
dynamic-programming matrix. -/
def levenshteinDistance (str1 str2 : String) : Nat :=
  let row0 := List.range (str1.length + 1)
  let lastRow := str2.data.foldl (levRow str1.data) row0
  lastRow.getLastD 0

/-- Embeds `_calculateSimilarity(str1, str2)`: the longer string is compared
against the shorter and the ratio `(longer.length - editDistance) /
longer.length` is returned as an exact rational (division by zero yields `0`,
observably equivalent to the JS `NaN` at every comparison the service makes). -/
def calculateSimilarity (str1 str2 : String) : ℚ :=
  let longer := if str1.length > str2.length then str1 else str2
  let shorter := if str1.length > str2.length then str2 else str1
  let editDistance := levenshteinDistance longer shorter
  ((longer.length : ℚ) - editDistance) / longer.length

/-- ASCII case folding of one character, as JS `toLowerCase` acts on the
ASCII range (the only range exercised here). -/
def jsCharToLower (c : Char) : Char :=
  if 'A' ≤ c ∧ c ≤ 'Z' then Char.ofNat (c.toNat + 32) else c

/-- JS `String.prototype.toLowerCase`, restricted to the ASCII case map. -/
def jsToLower (s : String) : String :=
  String.mk (s.data.map jsCharToLower)

/-- Embeds the JS `profile.displayName?.toLowerCase() || ''` normalization. -/
def profileName (p : UserProfile) : String :=
  match p.displayName with
  | none => ""
  | some n => jsToLower n

/-- Embeds `attemptAutoMapping(lineUserId, wechatUserId)`: requires both
profiles in the cache, lower-cases the display names, and maps (with the
`autoMapped` option) when both names are non-empty and the similarity
exceeds `0.8`. -/
def attemptAutoMapping (s : MappingStore) (lineUserId wechatUserId : String)
    (now : Nat) : Bool × MappingStore :=
  match getUserProfile s "line" lineUserId, getUserProfile s "wechat" wechatUserId with
  | none, _ => (false, s)
  | _, none => (false, s)
  | some lineProfile, some wechatProfile =>
      let lineName := profileName lineProfile
      let wechatName := profileName wechatProfile
      if lineName ≠ "" ∧ wechatName ≠ "" ∧ calculateSimilarity lineName wechatName > 8/10 then
        mapLineToWeChat s lineUserId wechatUserId now true
      else
        (false, s)

/-! ## src/services/translationService.js

The `TranslationService` singleton.  The OpenAI chat-completion collaborator
is passed as an explicit outcome argument: `Except Unit OpenAIResponse`
models the axios call (any thrown error — auth, rate limit, timeout — is
`error`; a delivered JSON body is `ok`).  Each field the code dereferences
optionally (`choices`, `choices[0]`, `message`, `content`) is an `Option`;
a missing field makes the JS member access throw inside the local
`try`/`catch`, which the embedding folds into the `none` branch. -/

/-- The `message` object of one OpenAI choice. -/
structure OpenAIMessage where
  content : Option String
  deriving Repr, DecidableEq

/-- One element of the OpenAI `choices` array. -/
structure OpenAIChoice where
  message : Option OpenAIMessage
  deriving Repr, DecidableEq

/-- Body of the OpenAI chat-completion response. -/
structure OpenAIResponse where
  choices : Option (List OpenAIChoice)
  deriving Repr, DecidableEq

/-- JS whitespace test for the characters `trim` strips (ASCII subset). -/
def jsIsSpace (c : Char) : Bool :=
  c = ' ' ∨ c = '\t' ∨ c = '\n' ∨ c = '\r'

/-- JS `String.prototype.trim`: strip leading and trailing whitespace. -/
def jsTrim (s : String) : String :=
  String.mk (((s.data.dropWhile jsIsSpace).reverse.dropWhile jsIsSpace).reverse)

/-- The chain `response.data.choices[0].message.content` of member accesses:
`none` when any step would throw in JS. -/
def extractContent (r : OpenAIResponse) : Option String :=
  r.choices.bind fun cs => cs.head?.bind fun c => c.message.bind fun m => m.content

/-- Embeds `_translateWithOpenAI(text, targetLang)`: no API key → original
text; provider throw → original text (caught); malformed response (any
missing field on the `choices[0].message.content` path, which throws inside
the `try`) → original text; otherwise the trimmed content. -/
def translateWithOpenAI (openaiApiKey : Option String) (text _targetLang : String)
    (resp : Except Unit OpenAIResponse) : String :=
  match openaiApiKey with
  | none => text
  | some _ =>
      match resp with
      | .error _ => text
      | .ok r =>
          match extractContent r with
          | none => text
          | some c => jsTrim c

/-- Embeds `_translateWithMock(text, sourceLang, targetLang)`. -/
def translateWithMock (text _sourceLang targetLang : String) : String :=
  if targetLang = "zh-CN" ∨ targetLang = "zh" then "[中文] " ++ text
  else if targetLang = "ja" then "[日本語] " ++ text
  else "[" ++ targetLang ++ "] " ++ text

/-- Result of `_performTranslation` together with whether the backing
provider (mock or OpenAI) was invoked. -/
structure TranslationOutcome where
  result : String
  providerCalled : Bool
  deriving Repr, DecidableEq

/-- Embeds `_performTranslation(text, sourceLang, targetLang)`: identical
source and target short-circuit to the input with no provider call;
otherwise the mock (test mode) or OpenAI provider is invoked. -/
def performTranslation (text sourceLang targetLang : String) (useMock : Bool)
    (openaiApiKey : Option String) (resp : Except Unit OpenAIResponse) :
    TranslationOutcome :=
  if sourceLang = targetLang then { result := text, providerCalled := false }
  else if useMock then
    { result := translateWithMock text sourceLang targetLang, providerCalled := true }
  else
    { result := translateWithOpenAI openaiApiKey text targetLang resp,
      providerCalled := true }

/-- Embeds `translateToChinese(text)` (default `sourceLang = 'auto'`): empty
input is returned as the empty string; the surrounding `try`/`catch` never
fires because `_performTranslation` is total in the model. -/
def translateToChinese (text : String) (useMock : Bool)
    (openaiApiKey : Option String) (resp : Except Unit OpenAIResponse) : String :=
  if text = "" then ""
  else (performTranslation text "auto" "zh-CN" useMock openaiApiKey resp).result

/-- Embeds `translateToJapanese(text)` (default `sourceLang = 'auto'`). -/
def translateToJapanese (text : String) (useMock : Bool)
    (openaiApiKey : Option String) (resp : Except Unit OpenAIResponse) : String :=
  if text = "" then ""
  else (performTranslation text "auto" "ja" useMock openaiApiKey resp).result

/-! ## src/api/wechatRelay.js — access-token cache

Embeds `getWeComAccessToken` and the token-cache behaviour of
`sendWeComMessage`.  The module-level `accessTokenCache` becomes an explicit
`TokenCache` value threaded through the functions; `Date.now()` is the
`now : Int` argument; the two axios calls are outcome arguments. -/

/-- The module-level `accessTokenCache` (`token: null, expiresAt: 0` at
startup). -/
structure TokenCache where
  token : Option String
  expiresAt : Int
  deriving Repr, DecidableEq

/-- Body of the `gettoken` response consumed by `getWeComAccessToken`. -/
structure TokenFetchResult where
  errcode : Int
  errmsg : String
  access_token : String
  expires_in : Int
  deriving Repr, DecidableEq

/-- Result of `getWeComAccessToken`: the token handed to the caller, whether
the network was hit (`fetched`), and the cache afterwards. -/
structure TokenGetResult where
  token : String
  fetched : Bool
  cache : TokenCache
  deriving Repr, DecidableEq

/-- Embeds `getWeComAccessToken()`: missing credentials throw; a cached token
is returned without any network call when `now < expiresAt - 300000`
(the 5-minute buffer); otherwise the token endpoint is hit, a non-zero
`errcode` throws, and a fresh token is cached with expiry
`now + expires_in * 1000`. -/
def getWeComAccessToken (credsConfigured : Bool) (now : Int)
    (fetch : Except String TokenFetchResult) (cache : TokenCache) :
    Except String TokenGetResult :=
  if ¬credsConfigured then
    .error "WeChat Work credentials not configured (WECOM_CORP_ID or WECOM_CORP_SECRET missing)"
  else
    match cache.token with
    | some t =>
        if now < cache.expiresAt - 300000 then .ok { token := t, fetched := false, cache := cache }
        else
          match fetch with
          | .error e => .error e
          | .ok d =>
              if d.errcode ≠ 0 then
                .error ("WeChat Work API error: " ++ toString d.errcode ++ " - " ++ d.errmsg)
              else
                .ok { token := d.access_token, fetched := true,
                      cache := { token := some d.access_token,
                                 expiresAt := now + d.expires_in * 1000 } }
    | none =>
        match fetch with
        | .error e => .error e
        | .ok d =>
            if d.errcode ≠ 0 then
              .error ("WeChat Work API error: " ++ toString d.errcode ++ " - " ++ d.errmsg)
            else
              .ok { token := d.access_token, fetched := true,
                    cache := { token := some d.access_token,
                               expiresAt := now + d.expires_in * 1000 } }

/-- JS `String.prototype.includes`, via list infix. -/
def strContains (s pat : String) : Bool :=
  decide (pat.data <:+: s.data)

/-- Embeds the catch block of `sendWeComMessage`: an error whose message
mentions error code `40014` or `42001` clears the token cache. -/
def clearTokenOnAuthError (msg : String) (cache : TokenCache) : TokenCache :=
  if strContains msg "40014" ∨ strContains msg "42001" then
    { token := none, expiresAt := 0 }
  else cache

/-- Embeds the token-cache aspect of `sendWeComMessage`: obtain a token (any
throw propagates through the catch, which may clear the cache), post the
message, throw on a non-zero send `errcode` (again through the catch). -/
def sendWeComMessageTokenFlow (credsConfigured : Bool) (now : Int)
    (fetch : Except String TokenFetchResult) (cache : TokenCache)
    (sendErrcode : Int) (sendErrmsg : String) : Except String Unit × TokenCache :=
  match getWeComAccessToken credsConfigured now fetch cache with
  | .error e => (.error e, clearTokenOnAuthError e cache)
  | .ok r =>
      if sendErrcode ≠ 0 then
        (.error ("WeChat Work send message error: " ++ toString sendErrcode ++ " - " ++ sendErrmsg),
          clearTokenOnAuthError
            ("WeChat Work send message error: " ++ toString sendErrcode ++ " - " ++ sendErrmsg)
            r.cache)
      else (.ok (), r.cache)

/-! ## SHA-1 (node `crypto.createHash('sha1')`)

Reference implementation over `Nat` with explicit reduction mod `2^32`,
producing the lowercase hex digest exactly as `digest('hex')` does. -/

/-- Reduction mod `2^32`. -/
def w32 (n : Nat) : Nat := n % 4294967296

/-- Rotate a 32-bit word left by `s` bits. -/
def rotl32 (n s : Nat) : Nat := w32 (n * 2 ^ s + n / 2 ^ (32 - s))

/-- UTF-8 bytes of one character. -/
def utf8Bytes (c : Char) : List Nat :=
  let n := c.toNat
  if n < 128 then [n]
  else if n < 2048 then [192 + n / 64, 128 + n % 64]
  else if n < 65536 then [224 + n / 4096, 128 + n / 64 % 64, 128 + n % 64]
  else [240 + n / 262144, 128 + n / 4096 % 64, 128 + n / 64 % 64, 128 + n % 64]

/-- UTF-8 serialization of a string (what node hashes for a JS string). -/
def strUtf8 (s : String) : List Nat :=
  s.data.foldr (fun c acc => utf8Bytes c ++ acc) []

/-- Big-endian 8-byte encoding of the bit length. -/
def be64 (n : Nat) : List Nat :=
  [n / 72057594037927936 % 256, n / 281474976710656 % 256,
   n / 1099511627776 % 256, n / 4294967296 % 256,
   n / 16777216 % 256, n / 65536 % 256, n / 256 % 256, n % 256]

/-- SHA-1 padding: `0x80`, zeros to 56 mod 64, then the 64-bit bit length. -/
def sha1Pad (bytes : List Nat) : List Nat :=
  let len := bytes.length
  let zeros := (119 - len % 64) % 64
  bytes ++ [128] ++ List.replicate zeros 0 ++ be64 (len * 8)

/-- Split into 64-byte blocks (`fuel` bounds the recursion by the length). -/
def chunks64 : Nat → List Nat → List (List Nat)
  | 0, _ => []
  | _, [] => []
  | fuel + 1, l => l.take 64 :: chunks64 fuel (l.drop 64)

/-- Big-endian 4-byte groups to 32-bit words. -/
def bytesToWords : List Nat → List Nat
  | b0 :: b1 :: b2 :: b3 :: rest =>
      (((b0 * 256 + b1) * 256 + b2) * 256 + b3) :: bytesToWords rest
  | _ => []

/-- Message-schedule extension, building the 80 words in reverse. -/
def sha1ExtendGo : Nat → List Nat → List Nat
  | 0, rev => rev
  | k + 1, rev =>
      sha1ExtendGo k
        (rotl32 ((rev.getD 2 0) ^^^ (rev.getD 7 0) ^^^ (rev.getD 13 0) ^^^ (rev.getD 15 0)) 1
          :: rev)

/-- The 80-word message schedule of one block. -/
def sha1Extend (ws : List Nat) : List Nat :=
  (sha1ExtendGo 64 ws.reverse).reverse

/-- Round function. -/
def sha1F (i b c d : Nat) : Nat :=
  if i < 20 then (b &&& c) ||| ((b ^^^ 4294967295) &&& d)
  else if i < 40 then b ^^^ c ^^^ d
  else if i < 60 then (b &&& c) ||| (b &&& d) ||| (c &&& d)
  else b ^^^ c ^^^ d

/-- Round constants. -/
def sha1K (i : Nat) : Nat :=
  if i < 20 then 1518500249
  else if i < 40 then 1859775393
  else if i < 60 then 2400959708
  else 3395469782

/-- One SHA-1 round step on the five-register state. -/
def sha1Step (st : Nat × Nat × Nat × Nat × Nat) (iw : Nat × Nat) :
    Nat × Nat × Nat × Nat × Nat :=
  match st, iw with
  | (a, b, c, d, e), (i, w) =>
      (w32 (rotl32 a 5 + sha1F i b c d + e + sha1K i + w), a, rotl32 b 30, c, d)

/-- Compression of one 64-byte block into the running digest. -/
def sha1Block (h : List Nat) (block : List Nat) : List Nat :=
  let ws := sha1Extend (bytesToWords block)
  let st := (List.zip (List.range 80) ws).foldl sha1Step
    (h.getD 0 0, h.getD 1 0, h.getD 2 0, h.getD 3 0, h.getD 4 0)
  match st with
  | (a, b, c, d, e) =>
      [w32 (h.getD 0 0 + a), w32 (h.getD 1 0 + b), w32 (h.getD 2 0 + c),
       w32 (h.getD 3 0 + d), w32 (h.getD 4 0 + e)]

/-- SHA-1 digest (five 32-bit words) of a byte sequence. -/
def sha1Words (msg : List Nat) : List Nat :=
  let padded := sha1Pad msg
  (chunks64 padded.length padded).foldl sha1Block
    [1732584193, 4023233417, 2562383102, 271733878, 3285377520]

/-- Lowercase hex digit. -/
def hexChar (n : Nat) : Char :=
  Char.ofNat (if n < 10 then 48 + n else 87 + n)

/-- Lowercase hex rendering of one 32-bit word. -/
def word8Hex (n : Nat) : List Char :=
  [hexChar (n / 268435456 % 16), hexChar (n / 16777216 % 16),
   hexChar (n / 1048576 % 16), hexChar (n / 65536 % 16),
   hexChar (n / 4096 % 16), hexChar (n / 256 % 16),
   hexChar (n / 16 % 16), hexChar (n % 16)]

/-- Embeds `crypto.createHash('sha1').update(s).digest('hex')`. -/
def sha1Hex (s : String) : String :=
  String.mk ((sha1Words (strUtf8 s)).foldr (fun w acc => word8Hex w ++ acc) [])

/-! ## src/api/wechatWebhook.js — signature verification

`verifyWeComSignature` sorts the four strings with the JS default array
sort (lexicographic on UTF-16 code units), joins them, SHA-1-hex-digests
the result and compares case-sensitively to the supplied signature. -/

/-- UTF-16 code units of one character (surrogate pair above the BMP). -/
def charUtf16 (c : Char) : List Nat :=
  let n := c.toNat
  if n < 65536 then [n]
  else [55296 + (n - 65536) / 1024, 56320 + (n - 65536) % 1024]

/-- UTF-16 code-unit sequence of a string. -/
def utf16Units (s : String) : List Nat :=
  s.data.foldr (fun c acc => charUtf16 c ++ acc) []

/-- Lexicographic strict order on code-unit sequences (the JS `<` on
strings, which the default array sort realizes). -/
def unitsLt : List Nat → List Nat → Bool
  | [], [] => false
  | [], _ :: _ => true
  | _ :: _, [] => false
  | x :: xs, y :: ys => if x < y then true else if y < x then false else unitsLt xs ys

/-- Stable insertion into a sorted list under the JS string order. -/
def jsSortInsert (x : String) : List String → List String
  | [] => [x]
  | y :: ys =>
      if unitsLt (utf16Units y) (utf16Units x) then y :: jsSortInsert x ys
      else x :: y :: ys

/-- JS `Array.prototype.sort()` on strings (default comparator). -/
def jsSortStrings (l : List String) : List String :=
  l.foldr jsSortInsert []

/-- Embeds `verifyWeComSignature(signature, timestamp, nonce, token,
encryptedMsg)`: sort, join, SHA-1 hex, case-sensitive compare. -/
def verifyWeComSignature (signature timestamp nonce token encryptedMsg : String) : Bool :=
  let tmpStr := String.join (jsSortStrings [token, timestamp, nonce, encryptedMsg])
  sha1Hex tmpStr == signature

/-- ASCII upper-casing of one character (JS `toUpperCase` on ASCII). -/
def jsCharToUpper (c : Char) : Char :=
  if 'a' ≤ c ∧ c ≤ 'z' then Char.ofNat (c.toNat - 32) else c

/-- JS `String.prototype.toUpperCase`, restricted to the ASCII case map. -/
def jsToUpper (s : String) : String :=
  String.mk (s.data.map jsCharToUpper)

/-! ## JSON values, `JSON.parse` and `JSON.stringify`

Express parses the raw LINE webhook body with `express.json()` and the
signature middleware re-serializes it with `JSON.stringify(req.body)`.
The model below covers the JSON fragment the webhook bodies use (objects,
arrays, strings with the common escapes, integers, booleans, null);
`stringify` preserves object key insertion order and emits no whitespace,
exactly as `JSON.stringify` does. -/

/-- JSON values (numbers restricted to integers). -/
inductive Json where
  | null : Json
  | bool (b : Bool) : Json
  | num (n : Int) : Json
  | str (s : String) : Json
  | arr (items : List Json) : Json
  | obj (fields : List (String × Json)) : Json
  deriving Repr

/-- The opening brace character. -/
def lbrace : Char := Char.ofNat 123

/-- The closing brace character. -/
def rbrace : Char := Char.ofNat 125

/-- JSON string-literal escaping of one character (the escapes the modelled
bodies can contain). -/
def jsonEscapeChar (c : Char) : List Char :=
  if c = '"' then ['\\', '"']
  else if c = '\\' then ['\\', '\\']
  else if c = '\n' then ['\\', 'n']
  else if c = '\t' then ['\\', 't']
  else if c = '\r' then ['\\', 'r']
  else [c]

/-- Quoted JSON string literal. -/
def jsonStrLit (s : String) : String :=
  "\"" ++ String.mk (s.data.foldr (fun c acc => jsonEscapeChar c ++ acc) []) ++ "\""

mutual

/-- Embeds `JSON.stringify` (no spacing, insertion order). -/
def stringify : Json → String
  | .null => "null"
  | .bool true => "true"
  | .bool false => "false"
  | .num n => toString n
  | .str s => jsonStrLit s
  | .arr items => "[" ++ stringifyItems items ++ "]"
  | .obj fields => String.mk [lbrace] ++ stringifyFields fields ++ String.mk [rbrace]

/-- Comma-separated serialization of array items. -/
def stringifyItems : List Json → String
  | [] => ""
  | [x] => stringify x
  | x :: xs => stringify x ++ "," ++ stringifyItems xs

/-- Comma-separated serialization of object fields. -/
def stringifyFields : List (String × Json) → String
  | [] => ""
  | [(k, v)] => jsonStrLit k ++ ":" ++ stringify v
  | (k, v) :: xs => jsonStrLit k ++ ":" ++ stringify v ++ "," ++ stringifyFields xs

end

/-- JSON whitespace. -/
def jsonWs (c : Char) : Bool :=
  c = ' ' ∨ c = '\t' ∨ c = '\n' ∨ c = '\r'

/-- Skip leading JSON whitespace. -/
def skipWs (l : List Char) : List Char :=
  l.dropWhile jsonWs

/-- Parse the remainder of a JSON string literal after the opening quote,
returning the contents and the input after the closing quote. -/
def parseStringBody : Nat → List Char → Option (List Char × List Char)
  | 0, _ => none
  | _ + 1, [] => none
  | fuel + 1, c :: rest =>
      if c = '"' then some ([], rest)
      else if c = '\\' then
        match rest with
        | [] => none
        | e :: rest2 =>
            let dec : Option Char :=
              if e = 'n' then some '\n'
              else if e = 't' then some '\t'
              else if e = 'r' then some '\r'
              else if e = '"' then some '"'
              else if e = '\\' then some '\\'
              else if e = '/' then some '/'
              else none
            match dec with
            | none => none
            | some d => (parseStringBody fuel rest2).map fun p => (d :: p.1, p.2)
      else (parseStringBody fuel rest).map fun p => (c :: p.1, p.2)

/-- Decimal digit test. -/
def isDigitChar (c : Char) : Bool := '0' ≤ c ∧ c ≤ '9'

/-- Digit run to a natural number. -/
def digitsToNat (ds : List Char) : Nat :=
  ds.foldl (fun acc c => acc * 10 + (c.toNat - 48)) 0

mutual

/-- Parse one JSON value (fuel-indexed; the fuel is sized from the input). -/
def parseValue : Nat → List Char → Option (Json × List Char)
  | 0, _ => none
  | fuel + 1, input =>
      match skipWs input with
      | [] => none
      | c :: rest =>
          if c = '"' then
            (parseStringBody (rest.length + 1) rest).map fun p => (.str (String.mk p.1), p.2)
          else if c = '[' then
            match skipWs rest with
            | ']' :: r2 => some (.arr [], r2)
            | r1 => (parseItems fuel r1).map fun p => (.arr p.1, p.2)
          else if c = lbrace then
            match skipWs rest with
            | r1 =>
                match r1 with
                | d :: r2 =>
                    if d = rbrace then some (.obj [], r2)
                    else (parseFields fuel r1).map fun p => (.obj p.1, p.2)
                | [] => none
          else if c = 't' then
            match rest with
            | 'r' :: 'u' :: 'e' :: r2 => some (.bool true, r2)
            | _ => none
          else if c = 'f' then
            match rest with
            | 'a' :: 'l' :: 's' :: 'e' :: r2 => some (.bool false, r2)
            | _ => none
          else if c = 'n' then
            match rest with
            | 'u' :: 'l' :: 'l' :: r2 => some (.null, r2)
            | _ => none
          else if c = '-' then
            match rest.span isDigitChar with
            | ([], _) => none
            | (ds, r2) => some (.num (-(digitsToNat ds : Int)), r2)
          else if isDigitChar c then
            match rest.span isDigitChar with
            | (ds, r2) => some (.num (digitsToNat (c :: ds) : Int), r2)
          else none

/-- Parse one or more comma-separated array items up to `]`. -/
def parseItems : Nat → List Char → Option (List Json × List Char)
  | 0, _ => none
  | fuel + 1, input =>
      match parseValue fuel input with
      | none => none
      | some (v, rest) =>
          match skipWs rest with
          | ',' :: r2 => (parseItems fuel r2).map fun p => (v :: p.1, p.2)
          | ']' :: r2 => some ([v], r2)
          | _ => none

/-- Parse one or more comma-separated object fields up to the closing
brace. -/
def parseFields : Nat → List Char → Option (List (String × Json) × List Char)
  | 0, _ => none
  | fuel + 1, input =>
      match skipWs input with
      | '"' :: rest =>
          match parseStringBody (rest.length + 1) rest with
          | none => none
          | some (key, r1) =>
              match skipWs r1 with
              | ':' :: r2 =>
                  match parseValue fuel r2 with
                  | none => none
                  | some (v, r3) =>
                      match skipWs r3 with
                      | ',' :: r4 => (parseFields fuel r4).map
                          fun p => ((String.mk key, v) :: p.1, p.2)
                      | d :: r4 =>
                          if d = rbrace then some ([(String.mk key, v)], r4) else none
                      | [] => none
              | _ => none
      | _ => none

end

/-- Embeds `JSON.parse` (as invoked by `express.json()` on the raw body):
the whole input must be one value followed only by whitespace. -/
def jsonParse (s : String) : Option Json :=
  match parseValue (2 * s.length + 2) s.data with
  | some (v, rest) => if skipWs rest = [] then some v else none
  | none => none

/-! ## src/api/lineWebhook.js — signature middleware

`validateLineSignature` (with validation enabled and the channel secret
configured) computes `JSON.stringify(req.body)` — a re-serialization of the
body express already parsed — feeds it to the HMAC, and compares the
base64 digest to the `x-line-signature` header.  The HMAC-plus-base64 step
`crypto.createHmac('sha256', secret)...digest('base64')` is the external
`mac` collaborator, a function of the signed string. -/

/-- Embeds the comparison performed by `validateLineSignature`: accept
exactly when the header equals `mac` applied to the RE-SERIALIZED parsed
body (a missing header never equals the digest). -/
def validateLineSignature (mac : String → String) (parsedBody : Json)
    (headerSig : Option String) : Bool :=
  match headerSig with
  | none => false
  | some h => h == mac (stringify parsedBody)

/-- Raw transmitted webhook body whose serialization differs from the
re-encoding of its parsed form (a single space after the colon). -/
def rawLineBody : String := "\x7b\"events\": []\x7d"

/-- The parse of `rawLineBody`. -/
def parsedLineBody : Json := .obj [("events", .arr [])]

/-! ## src/api/lineWebhook.js — relay pipeline and event loop

The LINE webhook handler composed with the real `sendWeComMessage` of
`src/api/wechatRelay.js`.  Outbound network effects are recorded as
`Action`s; JS `undefined` string fields are `Option String`; a JS
`TypeError` (member access on `undefined`) is `Except.error`. -/

/-- JS truthiness of a possibly-undefined string. -/
def jsTruthy (o : Option String) : Bool :=
  match o with
  | some s => s ≠ ""
  | none => false

/-- JS template-literal rendering of a possibly-undefined string
(`undefined` prints as the word). -/
def jsShow (o : Option String) : String :=
  match o with
  | some s => s
  | none => "undefined"

/-- JS `a || b` on possibly-undefined strings. -/
def jsOr (a b : Option String) : Option String :=
  match a with
  | some t => if t = "" then b else some t
  | none => b

/-- The `messageData` body `sendWeComMessage` posts to the WeCom send API
(the constant `msgtype: 'text'` and the numeric `agentid` are omitted as
no claim observes them). -/
structure WeComSendRequest where
  touser : String
  toparty : String
  totag : String
  content : String
  deriving Repr, DecidableEq

/-- Embeds the request construction of
`sendWeComMessage(content, touser, toparty, totag)` up to the axios post:
missing agent id throws, blank content throws, and with no recipient at all
the default party is used; the posted body carries the trimmed content. -/
def sendWeComMessageData (agentConfigured : Bool)
    (content touser toparty totag defaultParty : String) :
    Except String WeComSendRequest :=
  if ¬agentConfigured then
    .error "WeChat Work agent ID not configured (WECOM_AGENT_ID missing)"
  else if jsTrim content = "" then .error "Message content cannot be empty"
  else
    let toparty2 := if touser = "" ∧ toparty = "" ∧ totag = "" then defaultParty else toparty
    .ok { touser := touser, toparty := toparty2, totag := totag, content := jsTrim content }

/-- Observable side effects of the webhook pipeline. -/
inductive Action where
  | wecomSend (req : WeComSendRequest)
  | lineReply (replyToken : String) (text : String)
  | linePush (recipient : String) (text : String)
  deriving Repr, DecidableEq

/-- Embeds `sendLineReply(replyToken, message)` of `src/api/lineRelay.js`:
a falsy token or message is rejected (returns null, no call), otherwise the
reply API is hit. -/
def sendLineReply (replyToken : Option String) (message : String) : List Action :=
  match replyToken with
  | none => []
  | some tok => if tok = "" ∨ message = "" then [] else [.lineReply tok message]

/-- Fixed collaborator configuration of one webhook request: the mapping
store, the translator configuration, and the WeCom send outcome. -/
structure RelayCtx where
  store : MappingStore
  useMock : Bool
  openaiApiKey : Option String
  openaiResp : Except Unit OpenAIResponse
  agentConfigured : Bool
  defaultParty : String
  wecomSendOk : Bool

/-- Embeds `relayToWeChat(lineUserId, message, messageType)`: resolve the
mapped WeCom user, translate text messages to Chinese, and send via
`sendWeComMessage(wechatUserId, translatedMessage, 'text')` — which, against
`sendWeComMessage(content, touser, toparty, totag)`, passes the WeCom user
id as the CONTENT and the translated text as the recipient.  Any throw is
caught and yields `false`. -/
def relayToWeChat (ctx : RelayCtx) (lineUserId : String) (message : Option String)
    (messageType : String) : Bool × List Action :=
  match getWeChatUserFromLine ctx.store lineUserId with
  | none => (false, [])
  | some wechatUserId =>
      if messageType = "text" ∧ jsTruthy message then
        let translatedMessage :=
          translateToChinese (jsShow message) ctx.useMock ctx.openaiApiKey ctx.openaiResp
        match sendWeComMessageData ctx.agentConfigured
            wechatUserId translatedMessage "text" "" ctx.defaultParty with
        | .error _ => (false, [])
        | .ok req =>
            if ctx.wecomSendOk then (true, [.wecomSend req]) else (false, [.wecomSend req])
      else (false, [])

/-- Fields of `event.message` the handler reads into replies or relays. -/
structure LineMessage where
  type : String
  text : Option String := none
  fileName : Option String := none
  title : Option String := none
  address : Option String := none
  keywords : Option (List String) := none
  deriving Repr, DecidableEq

/-- The `event.source` object. -/
structure LineSource where
  userId : Option String := none
  deriving Repr, DecidableEq

/-- The `event.postback` object. -/
structure PostbackInfo where
  data : Option String := none
  deriving Repr, DecidableEq

/-- The `event.unsend` object. -/
structure UnsendInfo where
  messageId : Option String := none
  deriving Repr, DecidableEq

/-- One LINE webhook event. -/
structure LineEvent where
  type : String
  message : Option LineMessage := none
  source : Option LineSource := none
  replyToken : Option String := none
  postback : Option PostbackInfo := none
  unsend : Option UnsendInfo := none
  deriving Repr, DecidableEq

/-- The sticker notification string synthesized from the keywords. -/
def stickerMessage (keywords : Option (List String)) : String :=
  match keywords with
  | some ks =>
      if ks.length > 0 then "😄 " ++ String.intercalate " " ks ++ " (スタンプ sent a sticker)"
      else "😄 スタンプが送信されました (Sticker sent)"
  | none => "😄 スタンプが送信されました (Sticker sent)"

/-- The default-arm reply text (apostrophe spelled via its code point). -/
def unknownTypeReply : String :=
  "I received your message, but I don" ++ String.mk [Char.ofNat 39] ++
    "t know how to handle this type yet."

/-- Embeds `handleMessageEvent(event)`: the three field guards skip
malformed events, then the switch on the message type relays or replies.
Total — no arm can throw. -/
def handleMessageEvent (ctx : RelayCtx) (event : LineEvent) : List Action :=
  match event.message with
  | none => []
  | some msg =>
      match event.source with
      | none => []
      | some src =>
          if ¬jsTruthy src.userId then []
          else if ¬jsTruthy event.replyToken then []
          else
            let userId := jsShow src.userId
            let tok := event.replyToken
            if msg.type = "text" then
              let r := relayToWeChat ctx userId msg.text "text"
              r.2 ++
                (if r.1 then
                  sendLineReply tok "✅ メッセージをWeChatに転送しました (Message forwarded to WeChat)"
                else sendLineReply tok ("Echo: " ++ jsShow msg.text))
            else if msg.type = "image" then
              let r := relayToWeChat ctx userId (some "📷 画像が送信されました (Image sent)") "text"
              r.2 ++
                (if r.1 then
                  sendLineReply tok "✅ 画像通知をWeChatに送信しました (Image notification sent to WeChat)"
                else sendLineReply tok "I received your image! 📷")
            else if msg.type = "video" then
              sendLineReply tok "I received your video! 🎥"
            else if msg.type = "audio" then
              sendLineReply tok "I received your voice message! 🎵"
            else if msg.type = "file" then
              sendLineReply tok ("I received your file: " ++ jsShow msg.fileName ++ " 📁")
            else if msg.type = "location" then
              sendLineReply tok
                ("I received your location: " ++ jsShow (jsOr msg.title msg.address) ++ " 📍")
            else if msg.type = "sticker" then
              let r := relayToWeChat ctx userId (some (stickerMessage msg.keywords)) "text"
              r.2 ++
                (if r.1 then
                  sendLineReply tok "✅ スタンプ情報をWeChatに送信しました (Sticker info sent to WeChat)"
                else sendLineReply tok "Nice sticker! 😄")
            else sendLineReply tok unknownTypeReply

/-- Embeds the per-event dispatch of the webhook POST handler.  A postback
or unsend event without its payload object throws a `TypeError`
(`event.postback.data` / `event.unsend.messageId` on `undefined`), modelled
as `Except.error`. -/
def handleEvent (ctx : RelayCtx) (event : LineEvent) : Except Unit (List Action) :=
  if event.type = "message" then .ok (handleMessageEvent ctx event)
  else if event.type = "follow" then
    .ok (sendLineReply event.replyToken "Thank you for adding me as a friend! 👋")
  else if event.type = "unfollow" then .ok []
  else if event.type = "join" then
    .ok (sendLineReply event.replyToken "Hello everyone! Thanks for adding me to the group! 🎉")
  else if event.type = "leave" then .ok []
  else if event.type = "postback" then
    match event.postback with
    | none => .error ()
    | some p => .ok (sendLineReply event.replyToken ("You clicked: " ++ jsShow p.data))
  else if event.type = "unsend" then
    match event.unsend with
    | none => .error ()
    | some _ => .ok []
  else .ok []

/-- The sequential event loop of `router.post`: events run in order inside
one `try`; the first throw abandons the rest of the envelope. -/
def runEvents (ctx : RelayCtx) : List LineEvent → List Action × Bool
  | [] => ([], false)
  | e :: es =>
      match handleEvent ctx e with
      | .error _ => ([], true)
      | .ok as =>
          let r := runEvents ctx es
          (as ++ r.1, r.2)

/-- Embeds the webhook POST handler: HTTP status (200, or 500 from the
surrounding catch) together with the actions actually performed. -/
def lineWebhookPost (ctx : RelayCtx) (events : List LineEvent) : Nat × List Action :=
  let r := runEvents ctx events
  if r.2 then (500, r.1) else (200, r.1)

/-- Claim C1 scenario context: mapping `u1 → w1`, deterministic mock
translator, WeCom send succeeding. -/
def relayScenarioCtx : RelayCtx :=
  { store := (mapLineToWeChat MappingStore.empty "u1" "w1" 0).2,
    useMock := true, openaiApiKey := none, openaiResp := .error (),
    agentConfigured := true, defaultParty := "1", wecomSendOk := true }

/-- Claim C1 scenario event: inbound text `こんにちは` from `u1` with a
reply token. -/
def relayScenarioEvent : LineEvent :=
  { type := "message",
    message := some { type := "text", text := some "こんにちは" },
    source := some { userId := some "u1" },
    replyToken := some "r1" }

/-! ## Lemma library: JS Map semantics -/

theorem jsGet_jsSet_self {β : Type} (m : List (String × β)) (k : String) (v : β) :
    jsGet (jsSet m k v) k = some v := by
  induction m with
  | nil => simp [jsSet, jsGet]
  | cons hd tl ih =>
      obtain ⟨k0, v0⟩ := hd
      by_cases h : k0 = k <;> simp [jsSet, jsGet, h, ih]

theorem jsGet_jsSet_other {β : Type} (m : List (String × β)) (k k' : String) (v : β)
    (h : k' ≠ k) : jsGet (jsSet m k v) k' = jsGet m k' := by
  induction m with
  | nil => simp [jsSet, jsGet, Ne.symm h]
  | cons hd tl ih =>
      obtain ⟨k0, v0⟩ := hd
      by_cases h0 : k0 = k
      · subst h0
        simp [jsSet, jsGet, Ne.symm h]
      · simp only [jsSet, if_neg h0, jsGet]
        by_cases h1 : k0 = k' <;> simp [h1, ih]

theorem jsGet_jsDelete_self {β : Type} (m : List (String × β)) (k : String)
    (huniq : (m.map Prod.fst).Nodup) : jsGet (jsDelete m k) k = none := by
  induction m with
  | nil => simp [jsDelete, jsGet]
  | cons hd tl ih =>
      obtain ⟨k0, v0⟩ := hd
      simp only [List.map_cons, List.nodup_cons] at huniq
      by_cases h : k0 = k
      · subst h
        -- the key is gone from the tail, so lookup fails there
        simp only [jsDelete, if_pos rfl]
        clear ih
        induction tl with
        | nil => simp [jsGet]
        | cons hd2 tl2 ih2 =>
            obtain ⟨k2, v2⟩ := hd2
            simp only [List.map_cons, List.mem_cons, not_or] at huniq
            have hne : k2 ≠ k0 := fun hh => huniq.1.1 hh.symm
            simp only [jsGet, if_neg hne]
            exact ih2 ⟨huniq.1.2, (List.nodup_cons.mp huniq.2).2⟩
      · simp only [jsDelete, if_neg h, jsGet, if_neg h]
        exact ih huniq.2

theorem jsGet_jsDelete_other {β : Type} (m : List (String × β)) (k k' : String)
    (h : k' ≠ k) : jsGet (jsDelete m k) k' = jsGet m k' := by
  induction m with
  | nil => simp [jsDelete, jsGet]
  | cons hd tl ih =>
      obtain ⟨k0, v0⟩ := hd
      by_cases h0 : k0 = k
      · subst h0
        simp [jsDelete, jsGet, Ne.symm h]
      · simp only [jsDelete, if_neg h0, jsGet]
        by_cases h1 : k0 = k' <;> simp [h1, ih]

/-! ## Claim C2: mapping bijection -/

/-- C2 counterexample: with the bindings `a→b` then `a→c` created in an empty
store, the stale reverse entry survives — `resolveFromB(b)` still resolves to
`a` instead of becoming `NotFound`, refuting the claim that after
`mapUsers(a, b2)` the old reverse lookup no longer resolves to `a`. -/
theorem C2_stale_reverse_counterexample :
    getLineUserFromWeChat
      (mapLineToWeChat (mapLineToWeChat MappingStore.empty "a" "b" 0).2 "a" "c" 1).2
      "b" = some "a" := by
  decide

/-- C2 (amended): after `mapUsers(a, b)`, `resolveFromA(a) = b` and
`resolveFromB(b) = a`; after a subsequent `mapUsers(a, b2)` with `b2 ≠ b`,
the forward direction and the new reverse entry are updated, but the old
reverse entry is NOT removed: `resolveFromB(b)` still resolves to `a`
(`mapLineToWeChat` only overwrites, it never deletes the stale reverse
entry). -/
theorem C2_mapping_overwrite (s : MappingStore) (a b b2 : String) (n1 n2 : Nat)
    (ha : a ≠ "") (hb : b ≠ "") (hb2 : b2 ≠ "") (hne : b2 ≠ b) :
    getWeChatUserFromLine (mapLineToWeChat s a b n1).2 a = some b ∧
    getLineUserFromWeChat (mapLineToWeChat s a b n1).2 b = some a ∧
    getWeChatUserFromLine (mapLineToWeChat (mapLineToWeChat s a b n1).2 a b2 n2).2 a
      = some b2 ∧
    getLineUserFromWeChat (mapLineToWeChat (mapLineToWeChat s a b n1).2 a b2 n2).2 b2
      = some a ∧
    getLineUserFromWeChat (mapLineToWeChat (mapLineToWeChat s a b n1).2 a b2 n2).2 b
      = some a := by
  simp only [mapLineToWeChat, if_neg (by simp [ha, hb] : ¬(a = "" ∨ b = "")),
    if_neg (by simp [ha, hb2] : ¬(a = "" ∨ b2 = "")), getWeChatUserFromLine,
    getLineUserFromWeChat]
  refine ⟨?_, ?_, ?_, ?_, ?_⟩
  · simp [jsGet_jsSet_self]
  · simp [jsGet_jsSet_self]
  · simp [jsGet_jsSet_self]
  · simp [jsGet_jsSet_self]
  · simp [jsGet_jsSet_other _ _ _ _ hne.symm, jsGet_jsSet_self]

/-- C2 witness: the amended theorem applied at `a := "a"`, `b := "b"`,
`b2 := "c"` on the empty store. -/
theorem C2_mapping_overwrite_witness :
    ("a" : String) ≠ "" ∧ ("b" : String) ≠ "" ∧ ("c" : String) ≠ "" ∧
    ("c" : String) ≠ "b" ∧
    getLineUserFromWeChat
      (mapLineToWeChat (mapLineToWeChat MappingStore.empty "a" "b" 0).2 "a" "c" 1).2
      "b" = some "a" :=
  ⟨by decide, by decide, by decide, by decide,
    (C2_mapping_overwrite MappingStore.empty "a" "b" "c" 0 1
      (by decide) (by decide) (by decide) (by decide)).2.2.2.2⟩

/-! ## Claim C10: removeMapping frame conditions -/

/-- C10: `removeMapping(aId)` with no forward mapping returns `false` and
leaves the whole store unchanged; with a forward mapping `aId → b` it returns
`true`, removes exactly the forward entry for `aId` and the reverse entry
keyed by the stored `b`, and leaves every other user mapping, all group
mappings and all profiles unchanged.  The `Nodup` hypotheses state key
uniqueness, which every JS `Map` guarantees. -/
theorem C10_removeMapping_frame (s : MappingStore) (a : String)
    (hnf : (s.lineToChatMappings.map Prod.fst).Nodup)
    (hnr : (s.wechatToLineMappings.map Prod.fst).Nodup) :
    (jsGet s.lineToChatMappings a = none → removeMapping s a = (false, s)) ∧
    (∀ e, jsGet s.lineToChatMappings a = some e →
      (removeMapping s a).1 = true ∧
      jsGet (removeMapping s a).2.lineToChatMappings a = none ∧
      jsGet (removeMapping s a).2.wechatToLineMappings e.counterpart = none ∧
      (∀ k, k ≠ a →
        jsGet (removeMapping s a).2.lineToChatMappings k = jsGet s.lineToChatMappings k) ∧
      (∀ w, w ≠ e.counterpart →
        jsGet (removeMapping s a).2.wechatToLineMappings w
          = jsGet s.wechatToLineMappings w) ∧
      (removeMapping s a).2.groupMappings = s.groupMappings ∧
      (removeMapping s a).2.userProfiles = s.userProfiles) := by
  constructor
  · intro h
    simp [removeMapping, h]
  · intro e he
    simp only [removeMapping, he]
    refine ⟨trivial, ?_, ?_, ?_, ?_, trivial, trivial⟩
    · exact jsGet_jsDelete_self _ _ hnf
    · exact jsGet_jsDelete_self _ _ hnr
    · intro k hk
      exact jsGet_jsDelete_other _ _ _ hk
    · intro w hw
      exact jsGet_jsDelete_other _ _ _ hw

/-- C10 witness: the frame theorem applied to a concrete two-user store,
removing the mapped user `a1`. -/
theorem C10_removeMapping_frame_witness :
    ((([("a1", MapEntry.mk "b1" 0 false), ("a2", MapEntry.mk "b2" 0 false)]
        : List (String × MapEntry)).map Prod.fst).Nodup ∧
      (([("b1", MapEntry.mk "a1" 0 false), ("b2", MapEntry.mk "a2" 0 false)]
        : List (String × MapEntry)).map Prod.fst).Nodup) ∧
    jsGet ([("a1", MapEntry.mk "b1" 0 false), ("a2", MapEntry.mk "b2" 0 false)]
        : List (String × MapEntry)) "a1" = some (MapEntry.mk "b1" 0 false) ∧
    (removeMapping
        (MappingStore.mk
          [("a1", MapEntry.mk "b1" 0 false), ("a2", MapEntry.mk "b2" 0 false)]
          [("b1", MapEntry.mk "a1" 0 false), ("b2", MapEntry.mk "a2" 0 false)]
          [("g1", "h1")] [("line:u", UserProfile.mk (some "n"))])
        "a1").1 = true :=
  ⟨⟨by decide, by decide⟩, by decide,
    ((C10_removeMapping_frame
        (MappingStore.mk
          [("a1", MapEntry.mk "b1" 0 false), ("a2", MapEntry.mk "b2" 0 false)]
          [("b1", MapEntry.mk "a1" 0 false), ("b2", MapEntry.mk "a2" 0 false)]
          [("g1", "h1")] [("line:u", UserProfile.mk (some "n"))])
        "a1" (by decide) (by decide)).2
      (MapEntry.mk "b1" 0 false) (by decide)).1⟩

/-! ## Claim C8: auto-mapping threshold -/

/-- Profile cache holding display names whose similarity is exactly `0.8`
(`abcde` vs `abcdx`: Levenshtein distance 1 over length 5). -/
def autoMapStoreA : MappingStore :=
  storeUserProfile
    (storeUserProfile MappingStore.empty "line" "u" (UserProfile.mk (some "abcde")))
    "wechat" "w" (UserProfile.mk (some "abcdx"))

/-- Similarity of the two cached names is exactly `0.8`. -/
theorem calculateSimilarity_abcde_abcdx : calculateSimilarity "abcde" "abcdx" = 8/10 := by
  have h : levenshteinDistance "abcdx" "abcde" = 1 := by decide
  unfold calculateSimilarity
  norm_num [h, String.length]

/-- C8 counterexample: both profiles are present and the display-name
similarity is exactly `0.8`, yet `attemptAutoMapping` returns `false` and
creates no mapping — the code tests `similarity > 0.8` strictly, so
similarity exactly `0.8` does not create the mapping, refuting the claim's
threshold `≥ 0.8`. -/
theorem C8_exact_threshold_counterexample :
    getUserProfile autoMapStoreA "line" "u" = some (UserProfile.mk (some "abcde")) ∧
    getUserProfile autoMapStoreA "wechat" "w" = some (UserProfile.mk (some "abcdx")) ∧
    calculateSimilarity "abcde" "abcdx" = 8/10 ∧
    attemptAutoMapping autoMapStoreA "u" "w" 0 = (false, autoMapStoreA) := by
  refine ⟨by decide, by decide, calculateSimilarity_abcde_abcdx, ?_⟩
  have hl : getUserProfile autoMapStoreA "line" "u"
      = some (UserProfile.mk (some "abcde")) := by decide
  have hw : getUserProfile autoMapStoreA "wechat" "w"
      = some (UserProfile.mk (some "abcdx")) := by decide
  have hn1 : profileName (UserProfile.mk (some "abcde")) = "abcde" := by decide
  have hn2 : profileName (UserProfile.mk (some "abcdx")) = "abcdx" := by decide
  simp only [attemptAutoMapping, hl, hw, hn1, hn2]
  rw [if_neg]
  intro hcond
  have := hcond.2.2
  rw [calculateSimilarity_abcde_abcdx] at this
  exact absurd this (by norm_num)

/-- C8 (amended): `attemptAutoMap(aId, bId)` returns `false` without touching
the store whenever either profile is absent; when both profiles are present
(and the ids are non-empty, as every real platform id is), it creates the
mapping exactly when both case-normalized display names are non-empty and
the Levenshtein similarity `1 − distance/max(len)` is STRICTLY greater than
`0.8`; similarity exactly `0.8` does not create the mapping. -/
theorem C8_attemptAutoMapping_strict (s : MappingStore) (u w : String) (now : Nat)
    (hu : u ≠ "") (hw : w ≠ "") :
    (getUserProfile s "line" u = none ∨ getUserProfile s "wechat" w = none →
      attemptAutoMapping s u w now = (false, s)) ∧
    (∀ lp wp, getUserProfile s "line" u = some lp →
      getUserProfile s "wechat" w = some wp →
      ((profileName lp ≠ "" ∧ profileName wp ≠ "" ∧
          calculateSimilarity (profileName lp) (profileName wp) > 8/10) →
        attemptAutoMapping s u w now = (true, (mapLineToWeChat s u w now true).2) ∧
        getWeChatUserFromLine (attemptAutoMapping s u w now).2 u = some w) ∧
      (¬(profileName lp ≠ "" ∧ profileName wp ≠ "" ∧
          calculateSimilarity (profileName lp) (profileName wp) > 8/10) →
        attemptAutoMapping s u w now = (false, s))) := by
  have hids : ¬(u = "" ∨ w = "") := by simp [hu, hw]
  constructor
  · intro h
    cases hl : getUserProfile s "line" u with
    | none => simp [attemptAutoMapping, hl]
    | some lp =>
        rcases h with h | h
        · rw [hl] at h
          exact absurd h (by simp)
        · simp [attemptAutoMapping, hl, h]
  · intro lp wp hlp hwp
    constructor
    · intro hcond
      have hmap : attemptAutoMapping s u w now = mapLineToWeChat s u w now true := by
        simp only [attemptAutoMapping, hlp, hwp]
        rw [if_pos hcond]
      have hres : mapLineToWeChat s u w now true
          = (true, (mapLineToWeChat s u w now true).2) := by
        simp only [mapLineToWeChat, if_neg hids]
      refine ⟨hmap.trans hres, ?_⟩
      rw [hmap]
      simp only [mapLineToWeChat, if_neg hids, getWeChatUserFromLine]
      simp [jsGet_jsSet_self]
    · intro hcond
      simp only [attemptAutoMapping, hlp, hwp]
      rw [if_neg hcond]

/-- C8 witness: the amended theorem applied at the concrete `0.8`-similarity
profile cache, exercising the does-not-create branch. -/
theorem C8_attemptAutoMapping_strict_witness :
    ("u" : String) ≠ "" ∧ ("w" : String) ≠ "" ∧
    getUserProfile autoMapStoreA "line" "u" = some (UserProfile.mk (some "abcde")) ∧
    getUserProfile autoMapStoreA "wechat" "w" = some (UserProfile.mk (some "abcdx")) ∧
    ¬(profileName (UserProfile.mk (some "abcde")) ≠ "" ∧
        profileName (UserProfile.mk (some "abcdx")) ≠ "" ∧
        calculateSimilarity (profileName (UserProfile.mk (some "abcde")))
          (profileName (UserProfile.mk (some "abcdx"))) > 8/10) ∧
    attemptAutoMapping autoMapStoreA "u" "w" 3 = (false, autoMapStoreA) := by
  have hnot : ¬(profileName (UserProfile.mk (some "abcde")) ≠ "" ∧
      profileName (UserProfile.mk (some "abcdx")) ≠ "" ∧
      calculateSimilarity (profileName (UserProfile.mk (some "abcde")))
        (profileName (UserProfile.mk (some "abcdx"))) > 8/10) := by
    have hn1 : profileName (UserProfile.mk (some "abcde")) = "abcde" := by decide
    have hn2 : profileName (UserProfile.mk (some "abcdx")) = "abcdx" := by decide
    rw [hn1, hn2, calculateSimilarity_abcde_abcdx]
    intro hcond
    exact absurd hcond.2.2 (by norm_num)
  refine ⟨by decide, by decide, by decide, by decide, hnot, ?_⟩
  exact ((C8_attemptAutoMapping_strict autoMapStoreA "u" "w" 3
      (by decide) (by decide)).2
    (UserProfile.mk (some "abcde")) (UserProfile.mk (some "abcdx"))
    (by decide) (by decide)).2 hnot

/-! ## Claim C7: same-language short-circuit -/

/-- C7: translating with `sourceLang = targetLang = L` returns the input text
unchanged and performs zero provider calls, for every text, language and
provider configuration. -/
theorem C7_same_language_short_circuit (text L : String) (useMock : Bool)
    (openaiApiKey : Option String) (resp : Except Unit OpenAIResponse) :
    performTranslation text L L useMock openaiApiKey resp
      = { result := text, providerCalled := false } := by
  simp [performTranslation]

/-! ## Claim C5: translation fallback on provider failure -/

/-- C5 counterexample: the provider delivers a structurally well-formed
response whose `choices[0].message.content` is the empty string (an "empty
response"); `translateToChinese` then returns the empty string rather than
the original non-empty input, refuting the claim that a failing provider
response never yields an empty string for non-empty input. -/
theorem C5_empty_content_counterexample :
    translateToChinese "hello" false (some "key")
        (.ok (OpenAIResponse.mk (some [OpenAIChoice.mk (some (OpenAIMessage.mk (some "")))])))
      = "" ∧ ("" : String) ≠ "hello" := by
  constructor
  · rfl
  · decide

/-- C5 (amended): for every non-empty input, a thrown provider error (auth,
rate limit, timeout), a missing API key, or a structurally malformed
response (anything missing on the `choices[0].message.content` path) makes
both `translateToChinese` and `translateToJapanese` return the original
input unchanged — and as total functions they never raise; but a well-formed
response whose content is empty (or all whitespace) is trimmed and returned
as-is, so an empty result for non-empty input is possible on that path. -/
theorem C5_provider_failure_fallback (text : String) (ht : text ≠ "")
    (openaiApiKey : Option String) (resp : Except Unit OpenAIResponse) :
    (resp = .error () →
      translateToChinese text false openaiApiKey resp = text ∧
      translateToJapanese text false openaiApiKey resp = text) ∧
    (openaiApiKey = none →
      translateToChinese text false openaiApiKey resp = text ∧
      translateToJapanese text false openaiApiKey resp = text) ∧
    (∀ r, resp = .ok r → extractContent r = none →
      translateToChinese text false openaiApiKey resp = text ∧
      translateToJapanese text false openaiApiKey resp = text) ∧
    (∀ r c, resp = .ok r → extractContent r = some c → openaiApiKey ≠ none →
      translateToChinese text false openaiApiKey resp = jsTrim c) := by
  refine ⟨?_, ?_, ?_, ?_⟩
  · rintro rfl
    cases openaiApiKey <;>
      simp [translateToChinese, translateToJapanese, performTranslation,
        translateWithOpenAI, ht]
  · rintro rfl
    simp [translateToChinese, translateToJapanese, performTranslation,
      translateWithOpenAI, ht]
  · rintro r rfl hr
    cases openaiApiKey <;>
      simp [translateToChinese, translateToJapanese, performTranslation,
        translateWithOpenAI, ht, hr]
  · rintro r c rfl hc hk
    cases openaiApiKey with
    | none => exact absurd rfl hk
    | some k =>
        simp [translateToChinese, performTranslation, translateWithOpenAI, ht, hc]

/-- C5 witness: the fallback theorem applied at the non-empty input `hi`
with a thrown provider error. -/
theorem C5_provider_failure_fallback_witness :
    ("hi" : String) ≠ "" ∧
    translateToChinese "hi" false (some "key") (.error ()) = "hi" ∧
    translateToJapanese "hi" false (some "key") (.error ()) = "hi" :=
  ⟨by decide,
    (C5_provider_failure_fallback "hi" (by decide) (some "key") (.error ())).1 rfl⟩

/-! ## Claim C9: access-token cache discipline -/

/-- C9: the cached token is returned without a network call exactly when a
token is cached and the current time is more than five minutes (300000 ms)
before its recorded expiry; otherwise a fresh token is fetched and cached
with expiry `now + expires_in * 1000`; and an authentication-rejected send
response (errcode 40014 or 42001) clears the cache, after which the next
token access always refetches. -/
theorem C9_token_cache (cache : TokenCache) (now : Int)
    (fetch : Except String TokenFetchResult) :
    (∀ t, cache.token = some t → now < cache.expiresAt - 300000 →
      getWeComAccessToken true now fetch cache
        = .ok { token := t, fetched := false, cache := cache }) ∧
    (∀ r, getWeComAccessToken true now fetch cache = .ok r → r.fetched = false →
      cache.token = some r.token ∧ now < cache.expiresAt - 300000 ∧ r.cache = cache) ∧
    ((cache.token = none ∨ ¬now < cache.expiresAt - 300000) →
      ∀ d, fetch = .ok d → d.errcode = 0 →
      getWeComAccessToken true now fetch cache
        = .ok { token := d.access_token, fetched := true,
                cache := { token := some d.access_token,
                           expiresAt := now + d.expires_in * 1000 } }) ∧
    (∀ r errmsg code, getWeComAccessToken true now fetch cache = .ok r →
      (code = 40014 ∨ code = 42001) →
      (sendWeComMessageTokenFlow true now fetch cache code errmsg).2
        = { token := none, expiresAt := 0 }) ∧
    (∀ now2 fetch2 r2,
      getWeComAccessToken true now2 fetch2 { token := none, expiresAt := 0 } = .ok r2 →
      r2.fetched = true) := by
  refine ⟨?_, ?_, ?_, ?_, ?_⟩
  · intro t ht hlt
    simp [getWeComAccessToken, ht, hlt]
  · intro r hr hf
    simp only [getWeComAccessToken, not_true, if_false] at hr
    split at hr
    next t heq =>
      split at hr
      next hlt =>
        cases hr
        exact ⟨heq, hlt, rfl⟩
      next hlt =>
        split at hr
        next => exact absurd hr (by simp)
        next d heq2 =>
          split at hr
          next => exact absurd hr (by simp)
          next =>
            cases hr
            simp at hf
    next heq =>
      split at hr
      next => exact absurd hr (by simp)
      next d heq2 =>
        split at hr
        next => exact absurd hr (by simp)
        next =>
          cases hr
          simp at hf
  · intro hcond d hd he
    rcases hcond with hc | hc
    · simp [getWeComAccessToken, hc, hd, he]
    · cases ht : cache.token with
      | none => simp [getWeComAccessToken, ht, hd, he]
      | some t => simp [getWeComAccessToken, ht, hc, hd, he]
  · intro r errmsg code hr hcode
    have hmention : ∀ c : Int, c = 40014 ∨ c = 42001 →
        (strContains ("WeChat Work send message error: " ++ toString c ++ " - " ++ errmsg)
            "40014" = true) ∨
        (strContains ("WeChat Work send message error: " ++ toString c ++ " - " ++ errmsg)
            "42001" = true) := by
      intro c hc
      rcases hc with rfl | rfl
      · left
        have ht : toString (40014 : Int) = "40014" := by decide
        rw [ht]
        unfold strContains
        rw [decide_eq_true_eq]
        exact ⟨("WeChat Work send message error: ").data, (" - " ++ errmsg).data,
          by simp [String.data_append]⟩
      · right
        have ht : toString (42001 : Int) = "42001" := by decide
        rw [ht]
        unfold strContains
        rw [decide_eq_true_eq]
        exact ⟨("WeChat Work send message error: ").data, (" - " ++ errmsg).data,
          by simp [String.data_append]⟩
    have hne : code ≠ 0 := by rcases hcode with rfl | rfl <;> decide
    simp only [sendWeComMessageTokenFlow, hr, if_pos hne, clearTokenOnAuthError]
    rcases hmention code hcode with hm | hm <;> simp [hm]
  · intro now2 fetch2 r2 hr
    simp only [getWeComAccessToken, not_true, if_false] at hr
    split at hr
    next => exact absurd hr (by simp)
    next d heq =>
      split at hr
      next => exact absurd hr (by simp)
      next =>
        cases hr
        rfl

/-- C9 witness: the cache theorem applied at a concrete cached token well
before expiry (cached fast path) and at the empty cache (forced refetch). -/
theorem C9_token_cache_witness :
    (TokenCache.mk (some "tok") 1000000).token = some "tok" ∧
    (0 : Int) < (TokenCache.mk (some "tok") 1000000).expiresAt - 300000 ∧
    getWeComAccessToken true 0 (.ok (TokenFetchResult.mk 0 "ok" "fresh" 7200))
        (TokenCache.mk (some "tok") 1000000)
      = .ok { token := "tok", fetched := false,
              cache := TokenCache.mk (some "tok") 1000000 } :=
  ⟨rfl, by decide,
    (C9_token_cache (TokenCache.mk (some "tok") 1000000) 0
        (.ok (TokenFetchResult.mk 0 "ok" "fresh" 7200))).1
      "tok" rfl (by decide)⟩

/-! ## Claim C6: platform-B signature verification -/

/-- C6: the verifier accepts exactly when the SHA-1 hex digest of the
concatenation of the four values, sorted lexicographically as strings,
equals the supplied signature character for character; being a function of
its inputs it is deterministic; and whenever it accepts a signature whose
ASCII-uppercased form differs (as it always does for an otherwise-valid
lowercase hex digest containing a letter), the uppercased variant is
rejected. -/
theorem C6_verifyWeComSignature_exact
    (signature timestamp nonce token encryptedMsg : String) :
    (verifyWeComSignature signature timestamp nonce token encryptedMsg = true ↔
      sha1Hex (String.join (jsSortStrings [token, timestamp, nonce, encryptedMsg]))
        = signature) ∧
    (verifyWeComSignature signature timestamp nonce token encryptedMsg = true →
      jsToUpper signature ≠ signature →
      verifyWeComSignature (jsToUpper signature) timestamp nonce token encryptedMsg
        = false) := by
  constructor
  · simp [verifyWeComSignature]
  · intro hacc hup
    have hdig :
        sha1Hex (String.join (jsSortStrings [token, timestamp, nonce, encryptedMsg]))
          = signature := by
      simpa [verifyWeComSignature] using hacc
    simp [verifyWeComSignature, hdig]
    exact fun h => hup h.symm

set_option maxRecDepth 40000 in
/-- C6 witness: the verifier theorem applied at concrete inputs whose
sorted concatenation is `abcd`, with its real SHA-1 digest; the digest's
uppercased form differs, so the uppercased signature is rejected. -/
theorem C6_verifyWeComSignature_exact_witness :
    verifyWeComSignature "81fe8bfe87576c3ecb22426f8e57847382917acf" "b" "c" "a" "d"
      = true ∧
    jsToUpper "81fe8bfe87576c3ecb22426f8e57847382917acf"
      ≠ "81fe8bfe87576c3ecb22426f8e57847382917acf" ∧
    verifyWeComSignature
      (jsToUpper "81fe8bfe87576c3ecb22426f8e57847382917acf") "b" "c" "a" "d" = false :=
  ⟨by decide, by decide,
    (C6_verifyWeComSignature_exact
        "81fe8bfe87576c3ecb22426f8e57847382917acf" "b" "c" "a" "d").2
      (by decide) (by decide)⟩

/-! ## Claim C1: text relay scenario -/

/-- C1: evaluating the full pipeline at the claimed scenario (text
`こんにちは` from `u1`, mapping `u1 → w1`, mock translator, send
succeeding): the envelope is accepted with 200 and the localized
forward-confirmation reply is sent, BUT the outbound WeCom request carries
`touser = "[中文] こんにちは"` (the translated text) and
`content = "w1"` (the recipient id) — `relayToWeChat` passes
`(wechatUserId, translatedMessage, 'text')` into
`sendWeComMessage(content, touser, toparty, totag)`, so no request with
recipient `w1` and content equal to the translated text is ever made. -/
theorem C1_relay_swapped_arguments :
    lineWebhookPost relayScenarioCtx [relayScenarioEvent]
      = (200,
         [Action.wecomSend
            { touser := "[中文] こんにちは", toparty := "text", totag := "",
              content := "w1" },
          Action.lineReply "r1"
            "✅ メッセージをWeChatに転送しました (Message forwarded to WeChat)"]) ∧
    (∀ req, Action.wecomSend req ∈ (lineWebhookPost relayScenarioCtx [relayScenarioEvent]).2 →
      ¬(req.touser = "w1" ∧ req.content = "[中文] こんにちは")) := by
  have hpost : lineWebhookPost relayScenarioCtx [relayScenarioEvent]
      = (200,
         [Action.wecomSend
            { touser := "[中文] こんにちは", toparty := "text", totag := "",
              content := "w1" },
          Action.lineReply "r1"
            "✅ メッセージをWeChatに転送しました (Message forwarded to WeChat)"]) := by
    decide
  refine ⟨hpost, ?_⟩
  intro req hmem
  rw [hpost] at hmem
  rcases List.mem_cons.mp hmem with h | h
  · injection h with h2
    subst h2
    decide
  · rcases List.mem_cons.mp h with h2 | h2
    · simp at h2
    · simp at h2

/-! ## Claim C3: envelope partial-failure isolation -/

/-- Helper: dropping an event whose handler produced no actions does not
change the envelope outcome. -/
theorem runEvents_skip (ctx : RelayCtx) (e : LineEvent)
    (he : handleEvent ctx e = .ok []) (es1 es2 : List LineEvent) :
    runEvents ctx (es1 ++ e :: es2) = runEvents ctx (es1 ++ es2) := by
  induction es1 with
  | nil =>
      simp only [List.nil_append, runEvents, he]
  | cons a es1 ih =>
      simp only [List.cons_append, runEvents]
      cases h : handleEvent ctx a with
      | error u => simp [h]
      | ok as => simp [h, ih]

/-- Helper: an event whose handler throws makes the envelope keep the
actions of the preceding events (when those did not throw) and raises the
thrown flag; nothing after it runs. -/
theorem runEvents_append_error (ctx : RelayCtx) (es1 es2 : List LineEvent)
    (e : LineEvent) (herr : handleEvent ctx e = .error ())
    (hok : (runEvents ctx es1).2 = false) :
    runEvents ctx (es1 ++ e :: es2) = ((runEvents ctx es1).1, true) := by
  induction es1 with
  | nil => simp [runEvents, herr]
  | cons a es1 ih =>
      simp only [runEvents] at hok
      cases ha : handleEvent ctx a with
      | error u => rw [ha] at hok; simp at hok
      | ok as =>
          rw [ha] at hok
          simp only at hok
          simp only [List.cons_append, runEvents, ha, List.append_eq]
          rw [ih hok]

/-- C3 counterexample: an envelope of two events whose first is a malformed
`postback` event (no `postback` payload, so `event.postback.data` throws)
followed by a well-formed `follow` event; the handler aborts on the first
event: the sibling is never processed (no reply action occurs) and the
response is 500, not 200 — refuting partial-failure isolation. -/
theorem C3_abort_counterexample :
    lineWebhookPost
        { store := MappingStore.empty, useMock := true, openaiApiKey := none,
          openaiResp := .error (), agentConfigured := true, defaultParty := "1",
          wecomSendOk := true }
        [{ type := "postback", source := some { userId := some "u" },
           replyToken := some "r0" },
         { type := "follow", replyToken := some "r2" }]
      = (500, []) := by
  decide

/-- C3 (amended): a malformed MESSAGE event (missing `message`, `source` or
`replyToken`) is skipped by the field guards, so the remaining events of the
envelope are processed exactly as without it and the response stays 200; but
an event whose handler throws — e.g. a `postback` event without its
`postback` payload — aborts the envelope: events before it keep their
effects, events after it are never processed, and the response is 500.
There is no per-event catch. -/
theorem C3_envelope_partial_failure (ctx : RelayCtx) (es1 es2 : List LineEvent)
    (e : LineEvent) :
    (e.type = "message" →
      e.message = none ∨ e.source = none ∨ e.replyToken = none →
      handleEvent ctx e = .ok []) ∧
    (handleEvent ctx e = .ok [] →
      lineWebhookPost ctx (es1 ++ e :: es2) = lineWebhookPost ctx (es1 ++ es2)) ∧
    (e.type = "postback" → e.postback = none → handleEvent ctx e = .error ()) ∧
    (∀ as1, handleEvent ctx e = .error () → runEvents ctx es1 = (as1, false) →
      lineWebhookPost ctx (es1 ++ e :: es2) = (500, as1)) := by
  refine ⟨?_, ?_, ?_, ?_⟩
  · intro hm hbad
    rcases hbad with hb | hb | hb
    · simp [handleEvent, hm, handleMessageEvent, hb]
    · cases hmsg : e.message with
      | none => simp [handleEvent, hm, handleMessageEvent, hmsg]
      | some m => simp [handleEvent, hm, handleMessageEvent, hmsg, hb]
    · cases hmsg : e.message with
      | none => simp [handleEvent, hm, handleMessageEvent, hmsg]
      | some m =>
          cases hsrc : e.source with
          | none => simp [handleEvent, hm, handleMessageEvent, hmsg, hsrc]
          | some src =>
              by_cases hu : jsTruthy src.userId
              · simp [handleEvent, hm, handleMessageEvent, hmsg, hsrc, hu, hb, jsTruthy]
              · simp [handleEvent, hm, handleMessageEvent, hmsg, hsrc, hu]
  · intro he
    simp only [lineWebhookPost, runEvents_skip ctx e he es1 es2]
  · intro hp hnone
    simp [handleEvent, hp, hnone]
  · intro as1 herr hrun
    have hflag : (runEvents ctx es1).2 = false := by rw [hrun]
    have hacts : (runEvents ctx es1).1 = as1 := by rw [hrun]
    simp [lineWebhookPost, runEvents_append_error ctx es1 es2 e herr hflag, hacts]

/-- C3 witness: the amended theorem applied at a concrete envelope — a
well-formed follow event, then the throwing postback event, then another
follow event — with the throw established by the theorem itself. -/
theorem C3_envelope_partial_failure_witness :
    (LineEvent.mk "postback" none (some (LineSource.mk (some "u"))) (some "r0") none none).type
      = "postback" ∧
    (LineEvent.mk "postback" none (some (LineSource.mk (some "u"))) (some "r0") none none).postback
      = none ∧
    runEvents
        { store := MappingStore.empty, useMock := true, openaiApiKey := none,
          openaiResp := .error (), agentConfigured := true, defaultParty := "1",
          wecomSendOk := true }
        [LineEvent.mk "follow" none none (some "ra") none none]
      = ([Action.lineReply "ra" "Thank you for adding me as a friend! 👋"], false) ∧
    lineWebhookPost
        { store := MappingStore.empty, useMock := true, openaiApiKey := none,
          openaiResp := .error (), agentConfigured := true, defaultParty := "1",
          wecomSendOk := true }
        ([LineEvent.mk "follow" none none (some "ra") none none] ++
          LineEvent.mk "postback" none (some (LineSource.mk (some "u"))) (some "r0") none none ::
          [LineEvent.mk "follow" none none (some "rb") none none])
      = (500, [Action.lineReply "ra" "Thank you for adding me as a friend! 👋"]) := by
  refine ⟨rfl, rfl, by decide, ?_⟩
  have h := C3_envelope_partial_failure
    { store := MappingStore.empty, useMock := true, openaiApiKey := none,
      openaiResp := .error (), agentConfigured := true, defaultParty := "1",
      wecomSendOk := true }
    [LineEvent.mk "follow" none none (some "ra") none none]
    [LineEvent.mk "follow" none none (some "rb") none none]
    (LineEvent.mk "postback" none (some (LineSource.mk (some "u"))) (some "r0") none none)
  exact h.2.2.2 [Action.lineReply "ra" "Thank you for adding me as a friend! 👋"]
    (h.2.2.1 rfl rfl) (by decide)

/-! ## Claim C4: signature over raw bytes vs re-serialization -/

/-- C4: the signature middleware feeds `JSON.stringify(req.body)` — the
re-serialization of the parsed body — to the HMAC, not the raw transmitted
bytes.  For the transmitted body `\x7b"events": []\x7d` (one space), the
re-encoding differs from the raw bytes, and for every MAC separating the
two strings the signature computed over the transmitted raw bytes is
rejected — the code contradicts the constraint that the verifier operate on
raw bytes. -/
theorem C4_raw_byte_signature_rejected :
    jsonParse rawLineBody = some parsedLineBody ∧
    stringify parsedLineBody ≠ rawLineBody ∧
    (∀ mac : String → String, mac (stringify parsedLineBody) ≠ mac rawLineBody →
      validateLineSignature mac parsedLineBody (some (mac rawLineBody)) = false) := by
  refine ⟨rfl, by decide, ?_⟩
  intro mac hmac
  simp only [validateLineSignature, beq_eq_false_iff_ne, ne_eq]
  exact fun h => hmac (h.symm)

/-- C4 witness: the rejection theorem applied at the identity MAC, which
separates the raw body from its re-serialization. -/
theorem C4_raw_byte_signature_rejected_witness :
    (fun s : String => s) (stringify parsedLineBody) ≠ (fun s : String => s) rawLineBody ∧
    validateLineSignature (fun s : String => s) parsedLineBody
      (some ((fun s : String => s) rawLineBody)) = false :=
  ⟨by decide, C4_raw_byte_signature_rejected.2.2 (fun s => s) (by decide)⟩

end Relay
